import Mathlib

/-!
Shallow embedding of the EFI Boot Guard environment tool
(`src/tools/bg_setenv.c`): the environment record, the CRC-protected
codec, the sparse-change merge (`update_environment`), the option
handling (`parse_opt` / `argp_parse`) and the slot-selection control
flow of `main`, together with theorems checking the specified
properties.

The header `env_api.h` (record layout, `USTATE_*` constants, the zlib
`crc32`, the `bgenv_*` store adapter) is not part of the sources; those
parts are modelled from the specification and marked as such.
-/

namespace BGSetenv

/-- Modelled from the spec: fixed text capacity of the kernel-file and
kernel-arguments fields (`ENV_STRING_LENGTH` in `env_api.h`, "capacity
is fixed, e.g. 256"). -/
def ENV_STRING_LENGTH : Nat := 256

/-- Modelled from the spec: number of redundant config slots
(`ENV_NUM_CONFIG_PARTS` in `env_api.h`, "K fixed, e.g. 2"). -/
def ENV_NUM_CONFIG_PARTS : Nat := 2

/-- Byte used to mark fields of the temporary environment as "to be
ignored" (`bg_setenv.c` line 51). -/
def IGNORE_MARKER_BYTE : Nat := 0xEA

/-- Modelled from the spec: lowest update-status code (`env_api.h`). -/
def USTATE_MIN : Nat := 0

/-- Modelled from the spec: status code OK. -/
def USTATE_OK : Nat := 0

/-- Modelled from the spec: status code INSTALLED. -/
def USTATE_INSTALLED : Nat := 1

/-- Modelled from the spec: status code TESTING. -/
def USTATE_TESTING : Nat := 2

/-- Modelled from the spec: status code FAILED. -/
def USTATE_FAILED : Nat := 3

/-- Modelled from the spec: status code UNKNOWN (code 4, not settable
by name-based matching). -/
def USTATE_UNKNOWN : Nat := 4

/-- Modelled from the spec: upper bound of the status enum
(`env_api.h`); the name-matching loop runs for indices below it. -/
def USTATE_MAX : Nat := 4

/-- Modelled from the spec: the fixed environment file name appended to
the caller-supplied directory in file-output mode (`FAT_ENV_FILENAME`
in `env_api.h`). -/
def FAT_ENV_FILENAME : String := "BGENV.DAT"

/-- Modelled from the spec: the persisted environment record
(`BG_ENVDATA` in `env_api.h`).  Text fields are buffers of 16-bit
units (`ENV_STRING_LENGTH` many), integers are unsigned 32-bit values
represented as `Nat` reduced modulo `2 ^ 32` where they are written,
`ustate` is one byte, and the integrity value trails the record. -/
@[ext]
structure BG_ENVDATA where
  kernelfile : List Nat
  kernelparams : List Nat
  ustate : Nat
  revision : Nat
  watchdog_timeout_sec : Nat
  crc32 : Nat
  deriving DecidableEq

/-- One step of the reflected CRC-32 bit loop (polynomial 0xEDB88320). -/
def crc32_shift (c : Nat) : Nat :=
  if c % 2 = 1 then 0xEDB88320 ^^^ (c / 2) else c / 2

/-- CRC-32 update by a single byte: xor the byte in, then eight bit
steps. -/
def crc32_byte (c b : Nat) : Nat := crc32_shift^[8] (c ^^^ (b % 256))

/-- Modelled from the spec: the zlib `crc32(init, buf, len)` checksum
("a CRC-32 over all fields except the integrity field itself"); zlib
itself is an external library, not part of the sources. -/
def crc32 (start : Nat) (buf : List Nat) : Nat :=
  (buf.foldl crc32_byte ((start % 2 ^ 32) ^^^ 0xFFFFFFFF)) ^^^ 0xFFFFFFFF

/-- Little-endian bytes of a 16-bit unit. -/
def bytes16 (u : Nat) : List Nat := [u % 256, u / 2 ^ 8 % 256]

/-- Little-endian bytes of a 32-bit value. -/
def bytes32 (u : Nat) : List Nat :=
  [u % 256, u / 2 ^ 8 % 256, u / 2 ^ 16 % 256, u / 2 ^ 24 % 256]

/-- Modelled from the spec: the bytes of every field except the trailing
integrity field, in fixed field order (the byte range
`sizeof(BG_ENVDATA) - sizeof(crc32)` that `update_environment`
checksums). -/
def serializeContent (r : BG_ENVDATA) : List Nat :=
  (r.kernelfile.map bytes16).flatten ++ (r.kernelparams.map bytes16).flatten ++
    [r.ustate % 256] ++ bytes32 r.revision ++ bytes32 r.watchdog_timeout_sec

/-- CRC-32 of every record byte before the integrity field, as computed
at the end of `update_environment` (`bg_setenv.c` lines 240-241). -/
def compute_integrity (r : BG_ENVDATA) : Nat := crc32 0 (serializeContent r)

/-- Store the recomputed checksum into the integrity field (the
assignment `dest->crc32 = crc32(...)`, the spec's `finalize`). -/
def finalize (r : BG_ENVDATA) : BG_ENVDATA :=
  { r with crc32 := compute_integrity r }

/-- The temporary environment as initialized by `main`:
`memset(&arguments.tmpdata, IGNORE_MARKER_BYTE, sizeof(BG_ENVDATA))`
(`bg_setenv.c` lines 275-276), so every 16-bit unit is 0xEAEA and every
32-bit value is 0xEAEAEAEA. -/
def markerRecord : BG_ENVDATA :=
  { kernelfile := List.replicate ENV_STRING_LENGTH 0xEAEA
    kernelparams := List.replicate ENV_STRING_LENGTH 0xEAEA
    ustate := 0xEA
    revision := 0xEAEAEAEA
    watchdog_timeout_sec := 0xEAEAEAEA
    crc32 := 0xEAEAEAEA }

/-- The freshly zeroed record used in file-output mode:
`memset(&data, 0, sizeof(BG_ENVDATA))` (`bg_setenv.c` line 388). -/
def zeroRecord : BG_ENVDATA :=
  { kernelfile := List.replicate ENV_STRING_LENGTH 0
    kernelparams := List.replicate ENV_STRING_LENGTH 0
    ustate := 0
    revision := 0
    watchdog_timeout_sec := 0
    crc32 := 0 }

/-- The canonical status names (`ustatemap`, `bg_setenv.c` line 64). -/
def ustatemap : List String := ["OK", "INSTALLED", "TESTING", "FAILED", "UNKNOWN"]

/-- Test whether the whole of `name` matches the start of `s`
case-insensitively: `strncasecmp(s, name, strlen(name)) == 0` for
NUL-terminated C strings. -/
def ciMatch : List Char → List Char → Bool
  | [], _ => true
  | _ :: _, [] => false
  | c :: cs, d :: ds => (c.toLower == d.toLower) && ciMatch cs ds

/-- The scan of `str2ustate`: walk the indexed name table, first match
wins. -/
def findUstate (s : List Char) : List (Nat × String) → Nat
  | [] => USTATE_UNKNOWN
  | (i, name) :: rest => if ciMatch name.data s then i else findUstate s rest

/-- Translation of `str2ustate` (`bg_setenv.c` lines 66-79): a null
argument yields UNKNOWN, otherwise the names with indices
`USTATE_MIN ≤ i < USTATE_MAX` are tried in declared order. -/
def str2ustate (arg : Option String) : Nat :=
  match arg with
  | none => USTATE_UNKNOWN
  | some s => findUstate s.data (ustatemap.take USTATE_MAX).enum

/-- Translation of `ustate2str` (`bg_setenv.c` lines 81-86); the C
function has no defined result outside `[USTATE_MIN, USTATE_MAX]`,
modelled as `none`. -/
def ustate2str (u : Nat) : Option String :=
  if USTATE_MIN ≤ u ∧ u ≤ USTATE_MAX then ustatemap.get? u else none

/-- The `kernelfile` block of `update_environment` (`bg_setenv.c` lines
219-222): copy unless the low byte of the first unit is the marker. -/
def apply_kernelfile (dest src : BG_ENVDATA) : BG_ENVDATA :=
  if src.kernelfile.headD 0 % 256 ≠ IGNORE_MARKER_BYTE then
    { dest with kernelfile := src.kernelfile }
  else dest

/-- The `kernelparams` block of `update_environment` (lines 223-226). -/
def apply_kernelparams (dest src : BG_ENVDATA) : BG_ENVDATA :=
  if src.kernelparams.headD 0 % 256 ≠ IGNORE_MARKER_BYTE then
    { dest with kernelparams := src.kernelparams }
  else dest

/-- The `ustate` block of `update_environment` (lines 227-230). -/
def apply_ustate (dest src : BG_ENVDATA) : BG_ENVDATA :=
  if src.ustate % 256 ≠ IGNORE_MARKER_BYTE then
    { dest with ustate := src.ustate }
  else dest

/-- The `revision` block of `update_environment` (lines 231-234): the
check casts the 32-bit value to `uint8_t`, inspecting only its low
byte. -/
def apply_revision (dest src : BG_ENVDATA) : BG_ENVDATA :=
  if src.revision % 256 ≠ IGNORE_MARKER_BYTE then
    { dest with revision := src.revision }
  else dest

/-- The `watchdog_timeout_sec` block of `update_environment` (lines
235-239), same low-byte check. -/
def apply_watchdog (dest src : BG_ENVDATA) : BG_ENVDATA :=
  if src.watchdog_timeout_sec % 256 ≠ IGNORE_MARKER_BYTE then
    { dest with watchdog_timeout_sec := src.watchdog_timeout_sec }
  else dest

/-- Translation of `update_environment` (`bg_setenv.c` lines 214-242):
field-wise conditional copy followed by the CRC recomputation. -/
def update_environment (dest src : BG_ENVDATA) : BG_ENVDATA :=
  finalize (apply_watchdog (apply_revision (apply_ustate
    (apply_kernelparams (apply_kernelfile dest src) src) src) src) src)

/-- One command-line option of `bg_setenv` with its argument, keyed as
in `options_setenv` (`bg_setenv.c` lines 18-34). -/
inductive Opt where
  | k (arg : String)
  | a (arg : String)
  | p (arg : String)
  | s (arg : String)
  | r (arg : String)
  | w (arg : String)
  | f (arg : String)
  | c
  | u
  | v
  deriving DecidableEq

/-- The parser state: `struct arguments` together with the file-scope
flags `part_specified`, `auto_update`, `verbosity` and `envfilepath`
(`bg_setenv.c` lines 40-62). -/
structure Arguments where
  output_to_file : Bool
  which_part : Nat
  tmpdata : BG_ENVDATA
  part_specified : Bool
  auto_update : Bool
  verbosity : Bool
  envfilepath : String
  deriving DecidableEq

/-- State before parsing: `main` initializes the struct and `tmpdata`
is memset to the marker byte (`bg_setenv.c` lines 272-276); the
file-scope flags start false/empty. -/
def initialArguments : Arguments :=
  { output_to_file := false
    which_part := 0
    tmpdata := markerRecord
    part_specified := false
    auto_update := false
    verbosity := false
    envfilepath := "" }

/-- Decimal digit run at the head of `l`, or `none` when there is no
digit (strtol's `endptr == arg` case). -/
def parseDigits (l : List Char) : Option Nat :=
  let ds := l.takeWhile Char.isDigit
  if ds.isEmpty then none
  else some (ds.foldl (fun a c => a * 10 + (c.toNat - 48)) 0)

/-- Base-10 `strtol(arg, &tmp, 10)`: skip whitespace, optional sign,
digits; `none` models `tmp == arg` (no conversion). -/
def strtol10 (s : String) : Option Int :=
  match s.data.dropWhile Char.isWhitespace with
  | '-' :: rest => (parseDigits rest).map (fun n => -(n : Int))
  | '+' :: rest => (parseDigits rest).map (fun n => (n : Int))
  | l => (parseDigits l).map (fun n => (n : Int))

/-- `atoi`: like `strtol10` but yielding 0 when nothing parses. -/
def atoi (s : String) : Int := (strtol10 s).getD 0

/-- Conversion of a C `int` value to `uint32_t` (reduction modulo
`2 ^ 32`). -/
def u32 (i : Int) : Nat := (i % (2 ^ 32 : Int)).toNat

/-- Staging a text argument into a fixed buffer: `str8to16` widens each
character and `memcpy` copies `strlen(arg) * 2 + 2` bytes, i.e. the
characters plus a terminator, leaving the rest of the buffer
untouched (`bg_setenv.c` lines 104-105, 115-116); a 256-character
argument's terminator falls outside the field. -/
def stageText (s : String) (old : List Nat) : List Nat :=
  ((s.data.map Char.toNat) ++ 0 :: old.drop (s.data.length + 1)).take
    ENV_STRING_LENGTH

/-- Translation of `parse_opt` (`bg_setenv.c` lines 88-212) for one
option: `Except.error e` models a nonzero return aborting
`argp_parse`. -/
def parse_opt (st : Arguments) (o : Opt) : Except Nat Arguments :=
  match o with
  | .k arg =>
    if arg.length > ENV_STRING_LENGTH then .error 1
    else .ok { st with
      tmpdata := { st.tmpdata with
        kernelfile := stageText arg st.tmpdata.kernelfile } }
  | .a arg =>
    if arg.length > ENV_STRING_LENGTH then .error 1
    else .ok { st with
      tmpdata := { st.tmpdata with
        kernelparams := stageText arg st.tmpdata.kernelparams } }
  | .p arg =>
    match strtol10 arg with
    | none => .error 1
    | some i =>
      if i = 0 ∨ i = 1 then
        .ok { st with which_part := i.toNat, part_specified := true }
      else .error 1
  | .s arg =>
    match strtol10 arg with
    | some i =>
      if i < 0 ∨ 3 < i then .error 1
      else .ok { st with tmpdata := { st.tmpdata with ustate := i.toNat } }
    | none =>
      if str2ustate (some arg) = USTATE_UNKNOWN then .error 1
      else if 3 < str2ustate (some arg) then .error 1
      else .ok { st with
        tmpdata := { st.tmpdata with ustate := str2ustate (some arg) } }
  | .r arg =>
    .ok { st with tmpdata := { st.tmpdata with revision := u32 (atoi arg) } }
  | .w arg =>
    if atoi arg = 0 then .error 1
    else .ok { st with
      tmpdata := { st.tmpdata with watchdog_timeout_sec := u32 (atoi arg) } }
  | .f arg =>
    .ok { st with
      output_to_file := true
      envfilepath := arg ++ "/" ++ FAT_ENV_FILENAME }
  | .c => .ok { st with tmpdata := { st.tmpdata with ustate := 0 } }
  | .u =>
    if st.part_specified then .error 1
    else .ok { st with auto_update := true }
  | .v => .ok { st with verbosity := true }

/-- `argp_parse`: options are handed to `parse_opt` in command-line
order; the first nonzero handler result aborts parsing with that
error. -/
def argp_parse : List Opt → Arguments → Except Nat Arguments
  | [], st => .ok st
  | o :: os, st =>
    match parse_opt st o with
    | .error e => .error e
    | .ok st2 => argp_parse os st2

/-- One interaction of `main` with the slot store (the `bgenv_*`
adapter). -/
inductive StoreEvent where
  | init_store
  | read (i : Nat)
  | write (i : Nat)
  | close (i : Nat)
  deriving DecidableEq

/-- Slot lookup by index over the two config partitions. -/
def getSlot (slots : BG_ENVDATA × BG_ENVDATA) (i : Nat) : BG_ENVDATA :=
  if i = 0 then slots.1 else slots.2

/-- Replace the record held by slot `i`. -/
def setSlot (slots : BG_ENVDATA × BG_ENVDATA) (i : Nat) (r : BG_ENVDATA) :
    BG_ENVDATA × BG_ENVDATA :=
  if i = 0 then (r, slots.2) else (slots.1, r)

/-- Modelled from the spec: `bgenv_get_latest` picks the slot with the
maximum revision, ties resolving to the lowest index (`env_api` is not
part of the sources). -/
def latestIndex (slots : BG_ENVDATA × BG_ENVDATA) : Nat :=
  if slots.2.revision > slots.1.revision then 1 else 0

/-- Modelled from the spec: `bgenv_get_oldest` picks the slot with the
minimum revision, ties resolving to the lowest index. -/
def oldestIndex (slots : BG_ENVDATA × BG_ENVDATA) : Nat :=
  if slots.2.revision < slots.1.revision then 1 else 0

/-- Outcome of one `bg_setenv` invocation: exit code, the sequence of
store-adapter interactions, the record written to a plain file (if
any), and the final slot contents. -/
structure MainOutcome where
  exit_code : Nat
  events : List StoreEvent
  fileOut : Option (String × BG_ENVDATA)
  finalSlots : BG_ENVDATA × BG_ENVDATA
  deriving DecidableEq

/-- Store interactions of the dump loop at the start of the
non-file path (`bg_setenv.c` lines 284-306): init, then read and close
each config partition. -/
def dumpEvents : List StoreEvent :=
  [.init_store, .read 0, .close 0, .read 1, .close 1]

/-- Translation of `main` (`bg_setenv.c` lines 257-415) when invoked as
`bg_setenv` (write mode), with an ideal store adapter: parse the
options; on error return it with no store interaction; in file mode
merge once into a zeroed record and write it to the composed path; in
slot mode run the dump loop, select the target slot (auto-update /
explicit / latest), for auto-update derive the revision from the
latest slot and carry its whole record forward, merge, and write the
selected slot back. -/
def mainSetenv (argv : List Opt) (slots : BG_ENVDATA × BG_ENVDATA) :
    MainOutcome :=
  match argp_parse argv initialArguments with
  | .error e =>
    { exit_code := e, events := [], fileOut := none, finalSlots := slots }
  | .ok st =>
    if st.output_to_file then
      { exit_code := 0
        events := []
        fileOut := some (st.envfilepath, update_environment zeroRecord st.tmpdata)
        finalSlots := slots }
    else
      if st.auto_update then
        let li := latestIndex slots
        let oi := oldestIndex slots
        let tmp := { st.tmpdata with
          revision := ((getSlot slots li).revision + 1) % 2 ^ 32 }
        let merged := update_environment (getSlot slots li) tmp
        { exit_code := 0
          events := dumpEvents ++ [.read li, .read oi, .close li, .write oi, .close oi]
          fileOut := none
          finalSlots := setSlot slots oi merged }
      else if st.part_specified then
        let merged := update_environment (getSlot slots st.which_part) st.tmpdata
        { exit_code := 0
          events := dumpEvents ++
            [.read st.which_part, .write st.which_part, .close st.which_part]
          fileOut := none
          finalSlots := setSlot slots st.which_part merged }
      else
        let li := latestIndex slots
        let merged := update_environment (getSlot slots li) st.tmpdata
        { exit_code := 0
          events := dumpEvents ++ [.read li, .write li, .close li]
          fileOut := none
          finalSlots := setSlot slots li merged }

/-! ## Theorems -/

/-- Helper: the checksum stored by `update_environment` is the CRC of
the merged record's content bytes. -/
lemma crc_of_update (d s : BG_ENVDATA) :
    (update_environment d s).crc32 =
      compute_integrity (update_environment d s) := rfl

/-- Helper: the kernel-file field after a merge. -/
lemma ue_kf (d c : BG_ENVDATA) :
    (update_environment d c).kernelfile =
      if c.kernelfile.headD 0 % 256 ≠ IGNORE_MARKER_BYTE then c.kernelfile
      else d.kernelfile := by
  unfold update_environment finalize apply_watchdog apply_revision apply_ustate
    apply_kernelparams apply_kernelfile
  split_ifs <;> rfl

/-- Helper: the kernel-arguments field after a merge. -/
lemma ue_kp (d c : BG_ENVDATA) :
    (update_environment d c).kernelparams =
      if c.kernelparams.headD 0 % 256 ≠ IGNORE_MARKER_BYTE then c.kernelparams
      else d.kernelparams := by
  unfold update_environment finalize apply_watchdog apply_revision apply_ustate
    apply_kernelparams apply_kernelfile
  split_ifs <;> rfl

/-- Helper: the update-status field after a merge. -/
lemma ue_us (d c : BG_ENVDATA) :
    (update_environment d c).ustate =
      if c.ustate % 256 ≠ IGNORE_MARKER_BYTE then c.ustate else d.ustate := by
  unfold update_environment finalize apply_watchdog apply_revision apply_ustate
    apply_kernelparams apply_kernelfile
  split_ifs <;> rfl

/-- Helper: the revision field after a merge. -/
lemma ue_rev (d c : BG_ENVDATA) :
    (update_environment d c).revision =
      if c.revision % 256 ≠ IGNORE_MARKER_BYTE then c.revision
      else d.revision := by
  unfold update_environment finalize apply_watchdog apply_revision apply_ustate
    apply_kernelparams apply_kernelfile
  split_ifs <;> rfl

/-- Helper: the watchdog-timeout field after a merge. -/
lemma ue_wd (d c : BG_ENVDATA) :
    (update_environment d c).watchdog_timeout_sec =
      if c.watchdog_timeout_sec % 256 ≠ IGNORE_MARKER_BYTE then
        c.watchdog_timeout_sec
      else d.watchdog_timeout_sec := by
  unfold update_environment finalize apply_watchdog apply_revision apply_ustate
    apply_kernelparams apply_kernelfile
  split_ifs <;> rfl

/-- Helper: the integrity value only depends on the content fields. -/
lemma compute_integrity_congr (a b : BG_ENVDATA)
    (h1 : a.kernelfile = b.kernelfile) (h2 : a.kernelparams = b.kernelparams)
    (h3 : a.ustate = b.ustate) (h4 : a.revision = b.revision)
    (h5 : a.watchdog_timeout_sec = b.watchdog_timeout_sec) :
    compute_integrity a = compute_integrity b := by
  unfold compute_integrity serializeContent
  rw [h1, h2, h3, h4, h5]

/-- C4: for every record `r` and staged change `c`, applying the merge
twice yields the same result as applying it once, including the
recomputed integrity field. -/
theorem merge_idempotent (r c : BG_ENVDATA) :
    update_environment (update_environment r c) c = update_environment r c := by
  have hkf : (update_environment (update_environment r c) c).kernelfile =
      (update_environment r c).kernelfile := by
    rw [ue_kf (update_environment r c) c, ue_kf r c]
    split_ifs <;> rfl
  have hkp : (update_environment (update_environment r c) c).kernelparams =
      (update_environment r c).kernelparams := by
    rw [ue_kp (update_environment r c) c, ue_kp r c]
    split_ifs <;> rfl
  have hus : (update_environment (update_environment r c) c).ustate =
      (update_environment r c).ustate := by
    rw [ue_us (update_environment r c) c, ue_us r c]
    split_ifs <;> rfl
  have hrev : (update_environment (update_environment r c) c).revision =
      (update_environment r c).revision := by
    rw [ue_rev (update_environment r c) c, ue_rev r c]
    split_ifs <;> rfl
  have hwd : (update_environment (update_environment r c) c).watchdog_timeout_sec =
      (update_environment r c).watchdog_timeout_sec := by
    rw [ue_wd (update_environment r c) c, ue_wd r c]
    split_ifs <;> rfl
  have hcrc : (update_environment (update_environment r c) c).crc32 =
      (update_environment r c).crc32 := by
    rw [crc_of_update, crc_of_update]
    exact compute_integrity_congr _ _ hkf hkp hus hrev hwd
  exact BG_ENVDATA.ext hkf hkp hus hrev hwd hcrc

/-- C5: merging the all-unset staged change (the record memset to the
marker byte) onto any record `r` leaves every content field unchanged
and equals `finalize r`, the record with its integrity value
recomputed. -/
theorem merge_all_unset_is_finalize (r : BG_ENVDATA) :
    update_environment r markerRecord = finalize r := rfl

/-- C7: after every merge the integrity field equals the CRC-32 of all
preceding record bytes, and every mutation path of `main` (the slot
written back, the record written to a plain file) carries a record
whose integrity field is recomputed this way; untouched slots keep
their previous contents. -/
theorem integrity_recomputed_on_merge (dest src : BG_ENVDATA)
    (argv : List Opt) (slots : BG_ENVDATA × BG_ENVDATA) :
    (update_environment dest src).crc32 =
      compute_integrity (update_environment dest src)
    ∧ ((mainSetenv argv slots).fileOut.elim True
        (fun pr => pr.2.crc32 = compute_integrity pr.2))
    ∧ ((mainSetenv argv slots).finalSlots.1 = slots.1 ∨
        (mainSetenv argv slots).finalSlots.1.crc32 =
          compute_integrity (mainSetenv argv slots).finalSlots.1)
    ∧ ((mainSetenv argv slots).finalSlots.2 = slots.2 ∨
        (mainSetenv argv slots).finalSlots.2.crc32 =
          compute_integrity (mainSetenv argv slots).finalSlots.2) := by
  have hset1 : ∀ (sl : BG_ENVDATA × BG_ENVDATA) (i : Nat) (r : BG_ENVDATA),
      (setSlot sl i r).1 = sl.1 ∨ (setSlot sl i r).1 = r := by
    intro sl i r
    unfold setSlot
    split_ifs <;> simp
  have hset2 : ∀ (sl : BG_ENVDATA × BG_ENVDATA) (i : Nat) (r : BG_ENVDATA),
      (setSlot sl i r).2 = sl.2 ∨ (setSlot sl i r).2 = r := by
    intro sl i r
    unfold setSlot
    split_ifs <;> simp
  have hslot : ∀ (sl : BG_ENVDATA × BG_ENVDATA) (i : Nat) (d s : BG_ENVDATA),
      ((setSlot sl i (update_environment d s)).1 = sl.1 ∨
        (setSlot sl i (update_environment d s)).1.crc32 =
          compute_integrity (setSlot sl i (update_environment d s)).1) ∧
      ((setSlot sl i (update_environment d s)).2 = sl.2 ∨
        (setSlot sl i (update_environment d s)).2.crc32 =
          compute_integrity (setSlot sl i (update_environment d s)).2) := by
    intro sl i d s
    constructor
    · rcases hset1 sl i (update_environment d s) with h | h
      · exact Or.inl h
      · rw [h]
        exact Or.inr (crc_of_update d s)
    · rcases hset2 sl i (update_environment d s) with h | h
      · exact Or.inl h
      · rw [h]
        exact Or.inr (crc_of_update d s)
  refine ⟨crc_of_update _ _, ?_⟩
  unfold mainSetenv
  cases argp_parse argv initialArguments with
  | error e => exact ⟨trivial, Or.inl rfl, Or.inl rfl⟩
  | ok st =>
    by_cases hf : st.output_to_file
    · simp only [hf, if_true]
      exact ⟨crc_of_update _ _, Or.inl trivial, Or.inl trivial⟩
    · by_cases ha : st.auto_update
      · simp only [hf, ha, if_true, if_false]
        exact ⟨trivial, hslot _ _ _ _⟩
      · by_cases hp : st.part_specified
        · simp only [hf, ha, hp, if_true, if_false]
          exact ⟨trivial, hslot _ _ _ _⟩
        · simp only [hf, ha, hp, if_false]
          exact ⟨trivial, hslot _ _ _ _⟩

/-- C6: the status name/code mapping: the four sample strings map to
codes 0-3, unmatched or null input yields UNKNOWN (4), `ustate2str` is
the exact inverse on codes 0-4, and a result of UNKNOWN arises exactly
when none of the four matchable canonical names (case-insensitively,
in declared order) matches — UNKNOWN itself is outside the matching
loop. -/
theorem ustate_name_mapping :
    str2ustate (some "ok") = USTATE_OK
    ∧ str2ustate (some "INSTALLED") = USTATE_INSTALLED
    ∧ str2ustate (some "testing") = USTATE_TESTING
    ∧ str2ustate (some "FAILED") = USTATE_FAILED
    ∧ str2ustate (some "bogus") = USTATE_UNKNOWN
    ∧ str2ustate none = USTATE_UNKNOWN
    ∧ (∀ code : Fin 5, str2ustate (ustate2str code.val) = code.val)
    ∧ (∀ s : String, str2ustate (some s) = USTATE_UNKNOWN ↔
        (ciMatch "OK".data s.data = false
          ∧ ciMatch "INSTALLED".data s.data = false
          ∧ ciMatch "TESTING".data s.data = false
          ∧ ciMatch "FAILED".data s.data = false)) := by
  refine ⟨by decide, by decide, by decide, by decide, by decide, rfl,
    by decide, ?_⟩
  intro s
  show findUstate s.data (ustatemap.take USTATE_MAX).enum = USTATE_UNKNOWN ↔ _
  have henum : (ustatemap.take USTATE_MAX).enum =
      [(0, "OK"), (1, "INSTALLED"), (2, "TESTING"), (3, "FAILED")] := rfl
  rw [henum]
  simp only [findUstate]
  split_ifs <;> simp_all [USTATE_UNKNOWN]

/-- C10: a staged revision or watchdog value whose low byte is the
marker 0xEA (such as 234) is accepted by option parsing but treated as
unset by the merge, which silently keeps the destination's value. -/
theorem marker_byte_collision_drops_field (dest chg : BG_ENVDATA)
    (st : Arguments) :
    (chg.revision % 256 = IGNORE_MARKER_BYTE →
      (update_environment dest chg).revision = dest.revision)
    ∧ (chg.watchdog_timeout_sec % 256 = IGNORE_MARKER_BYTE →
      (update_environment dest chg).watchdog_timeout_sec =
        dest.watchdog_timeout_sec)
    ∧ parse_opt st (Opt.r "234") =
        .ok { st with tmpdata := { st.tmpdata with revision := 234 } }
    ∧ parse_opt st (Opt.w "234") =
        .ok { st with
          tmpdata := { st.tmpdata with watchdog_timeout_sec := 234 } } := by
  refine ⟨?_, ?_, rfl, rfl⟩
  · intro h
    rw [ue_rev]
    simp [h, IGNORE_MARKER_BYTE]
  · intro h
    rw [ue_wd]
    simp [h, IGNORE_MARKER_BYTE]

/-- Closed witness for C10: with revision and watchdog staged as 234
(low byte 0xEA) onto concretely chosen records, the merge keeps the
destination's values. -/
theorem marker_byte_collision_drops_field_witness :
    ({ markerRecord with revision := 234 } : BG_ENVDATA).revision % 256 =
      IGNORE_MARKER_BYTE
    ∧ (update_environment zeroRecord
        { markerRecord with revision := 234 }).revision = zeroRecord.revision
    ∧ ({ markerRecord with watchdog_timeout_sec := 234 } :
        BG_ENVDATA).watchdog_timeout_sec % 256 = IGNORE_MARKER_BYTE
    ∧ (update_environment zeroRecord
        { markerRecord with watchdog_timeout_sec := 234 }).watchdog_timeout_sec =
      zeroRecord.watchdog_timeout_sec :=
  ⟨by decide,
    (marker_byte_collision_drops_field zeroRecord
      { markerRecord with revision := 234 } initialArguments).1 (by decide),
    by decide,
    (marker_byte_collision_drops_field zeroRecord
      { markerRecord with watchdog_timeout_sec := 234 }
      initialArguments).2.1 (by decide)⟩

/-- C9: staging a kernel path or kernel-arguments text strictly longer
than `ENV_STRING_LENGTH` fails with error 1 at option-parsing time,
any text of length at most the capacity is accepted and staged into the
corresponding buffer, and a parse failure means `main` performs no
store interaction at all. -/
theorem text_length_validation (s : String) (st : Arguments)
    (argv : List Opt) (slots : BG_ENVDATA × BG_ENVDATA) :
    (s.length > ENV_STRING_LENGTH →
      parse_opt st (Opt.k s) = .error 1 ∧ parse_opt st (Opt.a s) = .error 1)
    ∧ (s.length ≤ ENV_STRING_LENGTH →
      parse_opt st (Opt.k s) = .ok { st with
          tmpdata := { st.tmpdata with
            kernelfile := stageText s st.tmpdata.kernelfile } }
      ∧ parse_opt st (Opt.a s) = .ok { st with
          tmpdata := { st.tmpdata with
            kernelparams := stageText s st.tmpdata.kernelparams } })
    ∧ (∀ e : Nat, argp_parse argv initialArguments = .error e →
        (mainSetenv argv slots).events = []) := by
  refine ⟨?_, ?_, ?_⟩
  · intro h
    refine ⟨?_, ?_⟩ <;>
      · simp only [parse_opt]
        rw [if_pos h]
  · intro h
    have h' : ¬ s.length > ENV_STRING_LENGTH := by omega
    refine ⟨?_, ?_⟩ <;>
      · simp only [parse_opt]
        rw [if_neg h']
  · intro e he
    simp [mainSetenv, he]

set_option maxRecDepth 8192 in
/-- Closed witness for C9: a 257-character kernel path is rejected, a
short one is accepted and staged, and an invocation whose parse fails
(here a zero watchdog timeout) touches no slot. -/
theorem text_length_validation_witness :
    (String.mk (List.replicate 257 'x')).length > ENV_STRING_LENGTH
    ∧ parse_opt initialArguments (Opt.k (String.mk (List.replicate 257 'x'))) =
        .error 1
    ∧ ("vmlinuz" : String).length ≤ ENV_STRING_LENGTH
    ∧ parse_opt initialArguments (Opt.k "vmlinuz") =
        .ok { initialArguments with
          tmpdata := { initialArguments.tmpdata with
            kernelfile :=
              stageText "vmlinuz" initialArguments.tmpdata.kernelfile } }
    ∧ argp_parse [Opt.w "0"] initialArguments = .error 1
    ∧ (mainSetenv [Opt.w "0"] (zeroRecord, zeroRecord)).events = [] :=
  ⟨by decide,
    ((text_length_validation (String.mk (List.replicate 257 'x'))
      initialArguments [] (zeroRecord, zeroRecord)).1 (by decide)).1,
    by decide,
    ((text_length_validation "vmlinuz" initialArguments []
      (zeroRecord, zeroRecord)).2.1 (by decide)).1,
    rfl,
    (text_length_validation "vmlinuz" initialArguments [Opt.w "0"]
      (zeroRecord, zeroRecord)).2.2 1 rfl⟩

/-- C1 (amended): when the confirm flag is processed after the status
flag, the staged `ustate` is OK and the merged record's `ustate` is OK;
confirm acts at flag-processing time (setting the staged value to 0),
not after the merge, so it wins exactly when it comes later in the
command line. -/
theorem status_then_confirm_yields_ok (sv : String) (st : Arguments)
    (dest : BG_ENVDATA)
    (h : argp_parse [Opt.s sv, Opt.c] initialArguments = .ok st) :
    st.tmpdata.ustate = USTATE_OK
    ∧ (update_environment dest st.tmpdata).ustate = USTATE_OK := by
  cases hp : parse_opt initialArguments (Opt.s sv) with
  | error e => simp [argp_parse, hp] at h
  | ok st1 =>
    simp only [argp_parse, hp] at h
    simp only [parse_opt, Except.ok.injEq] at h
    subst h
    refine ⟨rfl, ?_⟩
    rw [ue_us]
    simp [IGNORE_MARKER_BYTE, USTATE_OK]

/-- Closed witness for C1 (amended): `-s 2 -c` parses to a staged
`ustate` of 0, and the merged record has `ustate` OK. -/
theorem status_then_confirm_yields_ok_witness :
    argp_parse [Opt.s "2", Opt.c] initialArguments =
      .ok { initialArguments with
        tmpdata := { markerRecord with ustate := 0 } }
    ∧ ({ initialArguments with
        tmpdata := { markerRecord with ustate := 0 } } : Arguments).tmpdata.ustate
        = USTATE_OK
    ∧ (update_environment zeroRecord
        ({ initialArguments with
          tmpdata := { markerRecord with ustate := 0 } } : Arguments).tmpdata).ustate
        = USTATE_OK :=
  ⟨rfl,
    (status_then_confirm_yields_ok "2" _ zeroRecord rfl).1,
    (status_then_confirm_yields_ok "2" _ zeroRecord rfl).2⟩

/-- C1 counterexample: in the invocation `-c -s 2` (confirm together
with an explicit status flag, confirm first), the staged and merged
`ustate` is TESTING (2), not OK (0) — the claim's "regardless of the
order" fails because confirm is applied at parse time, not after the
merge. -/
theorem confirm_then_status_counterexample :
    (argp_parse [Opt.c, Opt.s "2"] initialArguments).map
        (fun st => (update_environment zeroRecord st.tmpdata).ustate) =
      .ok USTATE_TESTING
    ∧ (argp_parse [Opt.c, Opt.s "2"] initialArguments).map
        (fun st => (update_environment zeroRecord st.tmpdata).ustate) ≠
      .ok USTATE_OK := by
  constructor
  · rfl
  · intro hEq
    rw [show (argp_parse [Opt.c, Opt.s "2"] initialArguments).map
        (fun st => (update_environment zeroRecord st.tmpdata).ustate) =
      .ok USTATE_TESTING from rfl] at hEq
    exact absurd (Except.ok.inj hEq) (by decide)

/-- C2 (amended): when the explicit slot index is requested before
auto-update, parsing fails with error 1 (for any index argument) and no
slot is initialized, read or written; the conflict check sits only in
the auto-update handler, so the reverse order is not rejected. -/
theorem part_then_update_rejected_no_io (pv : String)
    (slots : BG_ENVDATA × BG_ENVDATA) :
    argp_parse [Opt.p pv, Opt.u] initialArguments = .error 1
    ∧ (mainSetenv [Opt.p pv, Opt.u] slots).events = []
    ∧ (mainSetenv [Opt.p pv, Opt.u] slots).finalSlots = slots := by
  have hparse : argp_parse [Opt.p pv, Opt.u] initialArguments = .error 1 := by
    cases hp : strtol10 pv with
    | none => simp [argp_parse, parse_opt, hp]
    | some i =>
      by_cases h01 : i = 0 ∨ i = 1
      · simp [argp_parse, parse_opt, hp, h01]
      · simp [argp_parse, parse_opt, hp, h01]
  refine ⟨hparse, ?_, ?_⟩ <;> simp [mainSetenv, hparse]

/-- C2 counterexample: the invocation `-u -p 0` (auto-update first,
explicit index second) is accepted by parsing — both modes end up
requested — and `main` proceeds to perform slot I/O, refuting the
claim's "in either flag order". -/
theorem update_then_part_accepted_counterexample :
    argp_parse [Opt.u, Opt.p "0"] initialArguments =
      .ok { initialArguments with
        auto_update := true, which_part := 0, part_specified := true }
    ∧ (mainSetenv [Opt.u, Opt.p "0"] (zeroRecord, zeroRecord)).events ≠ [] := by
  constructor
  · rfl
  · intro hEq
    rw [show (mainSetenv [Opt.u, Opt.p "0"] (zeroRecord, zeroRecord)).events =
      dumpEvents ++ [.read 0, .read 0, .close 0, .write 0, .close 0] from rfl]
      at hEq
    simp [dumpEvents] at hEq

/-- C8: whenever parsing succeeds with output redirected to a plain
file, `main` performs no store interaction at all, writes exactly one
merged record — produced by merging the staged change into a freshly
zeroed record — to the path recorded by the file flag, and leaves both
slots untouched; the file flag forms that path as the caller-supplied
directory plus the fixed environment file name. -/
theorem file_mode_no_slot_io (argv : List Opt)
    (slots : BG_ENVDATA × BG_ENVDATA) (st st' : Arguments) (dir : String)
    (h : argp_parse argv initialArguments = .ok st)
    (hf : st.output_to_file = true) :
    ((mainSetenv argv slots).events = []
    ∧ (mainSetenv argv slots).fileOut =
        some (st.envfilepath, update_environment zeroRecord st.tmpdata)
    ∧ (mainSetenv argv slots).finalSlots = slots)
    ∧ parse_opt st' (Opt.f dir) =
        .ok { st' with
          output_to_file := true
          envfilepath := dir ++ "/" ++ FAT_ENV_FILENAME } := by
  refine ⟨⟨?_, ?_, ?_⟩, rfl⟩ <;> simp [mainSetenv, h, hf]

/-- Closed witness for C8: the invocation `-f /boot` parses into file
mode, triggers no store event, and writes the merge of the staged
change into a zeroed record at `/boot/` plus the fixed file name. -/
theorem file_mode_no_slot_io_witness :
    argp_parse [Opt.f "/boot"] initialArguments =
      .ok { initialArguments with
        output_to_file := true
        envfilepath := "/boot" ++ "/" ++ FAT_ENV_FILENAME }
    ∧ ({ initialArguments with
        output_to_file := true
        envfilepath := "/boot" ++ "/" ++ FAT_ENV_FILENAME } :
          Arguments).output_to_file = true
    ∧ (mainSetenv [Opt.f "/boot"] (zeroRecord, zeroRecord)).events = []
    ∧ (mainSetenv [Opt.f "/boot"] (zeroRecord, zeroRecord)).fileOut =
        some ("/boot" ++ "/" ++ FAT_ENV_FILENAME,
          update_environment zeroRecord markerRecord)
    ∧ (mainSetenv [Opt.f "/boot"] (zeroRecord, zeroRecord)).finalSlots =
        (zeroRecord, zeroRecord) :=
  ⟨rfl, rfl,
    ((file_mode_no_slot_io [Opt.f "/boot"] (zeroRecord, zeroRecord) _
      initialArguments "/boot" rfl rfl).1).1,
    ((file_mode_no_slot_io [Opt.f "/boot"] (zeroRecord, zeroRecord) _
      initialArguments "/boot" rfl rfl).1).2.1,
    ((file_mode_no_slot_io [Opt.f "/boot"] (zeroRecord, zeroRecord) _
      initialArguments "/boot" rfl rfl).1).2.2⟩

/-- C3: under auto-update with slot revisions 5 and 2 and only `ustate`
staged as TESTING, the previously-oldest slot (index 1) ends with
revision 6 (latest + 1, overriding any user-supplied revision flag
`rv`), `ustate` TESTING, and every other field carried forward from the
previously-latest slot, which itself is left unchanged; the outcome is
identical with or without the user revision flag. -/
theorem auto_update_carry_forward (s0 s1 : BG_ENVDATA) (rv : String)
    (h0 : s0.revision = 5) (h1 : s1.revision = 2) :
    (mainSetenv [Opt.u, Opt.s "TESTING", Opt.r rv] (s0, s1)).finalSlots.2.revision = 6
    ∧ (mainSetenv [Opt.u, Opt.s "TESTING", Opt.r rv] (s0, s1)).finalSlots.2.ustate
        = USTATE_TESTING
    ∧ (mainSetenv [Opt.u, Opt.s "TESTING", Opt.r rv] (s0, s1)).finalSlots.2.kernelfile
        = s0.kernelfile
    ∧ (mainSetenv [Opt.u, Opt.s "TESTING", Opt.r rv] (s0, s1)).finalSlots.2.kernelparams
        = s0.kernelparams
    ∧ (mainSetenv [Opt.u, Opt.s "TESTING", Opt.r rv] (s0, s1)).finalSlots.2.watchdog_timeout_sec
        = s0.watchdog_timeout_sec
    ∧ (mainSetenv [Opt.u, Opt.s "TESTING", Opt.r rv] (s0, s1)).finalSlots.1 = s0
    ∧ (mainSetenv [Opt.u, Opt.s "TESTING", Opt.r rv] (s0, s1)).finalSlots =
        (mainSetenv [Opt.u, Opt.s "TESTING"] (s0, s1)).finalSlots := by
  obtain ⟨kf0, kp0, us0, rev0, wd0, crc0⟩ := s0
  obtain ⟨kf1, kp1, us1, rev1, wd1, crc1⟩ := s1
  have h0' : rev0 = 5 := h0
  have h1' : rev1 = 2 := h1
  subst h0'
  subst h1'
  have hmain : mainSetenv [Opt.u, Opt.s "TESTING", Opt.r rv]
      (⟨kf0, kp0, us0, 5, wd0, crc0⟩, ⟨kf1, kp1, us1, 2, wd1, crc1⟩) =
      { exit_code := 0
        events := dumpEvents ++ [.read 0, .read 1, .close 0, .write 1, .close 1]
        fileOut := none
        finalSlots := (⟨kf0, kp0, us0, 5, wd0, crc0⟩,
          update_environment ⟨kf0, kp0, us0, 5, wd0, crc0⟩
            { markerRecord with
              ustate := 2
              revision := (5 + 1) % 2 ^ 32 }) } := rfl
  have hmain' : mainSetenv [Opt.u, Opt.s "TESTING"]
      (⟨kf0, kp0, us0, 5, wd0, crc0⟩, ⟨kf1, kp1, us1, 2, wd1, crc1⟩) =
      { exit_code := 0
        events := dumpEvents ++ [.read 0, .read 1, .close 0, .write 1, .close 1]
        fileOut := none
        finalSlots := (⟨kf0, kp0, us0, 5, wd0, crc0⟩,
          update_environment ⟨kf0, kp0, us0, 5, wd0, crc0⟩
            { markerRecord with
              ustate := 2
              revision := (5 + 1) % 2 ^ 32 }) } := rfl
  rw [hmain, hmain']
  exact ⟨rfl, rfl, rfl, rfl, rfl, rfl, rfl⟩

/-- Closed witness for C3: concrete slots with revisions 5 and 2,
`-u -s TESTING -r 99`: the oldest slot becomes revision 6, TESTING,
carrying the latest slot's other fields. -/
theorem auto_update_carry_forward_witness :
    ({ zeroRecord with revision := 5 } : BG_ENVDATA).revision = 5
    ∧ ({ zeroRecord with revision := 2 } : BG_ENVDATA).revision = 2
    ∧ ((mainSetenv [Opt.u, Opt.s "TESTING", Opt.r "99"]
        ({ zeroRecord with revision := 5 }, { zeroRecord with revision := 2 })).finalSlots.2.revision = 6
    ∧ (mainSetenv [Opt.u, Opt.s "TESTING", Opt.r "99"]
        ({ zeroRecord with revision := 5 }, { zeroRecord with revision := 2 })).finalSlots.2.ustate
        = USTATE_TESTING
    ∧ (mainSetenv [Opt.u, Opt.s "TESTING", Opt.r "99"]
        ({ zeroRecord with revision := 5 }, { zeroRecord with revision := 2 })).finalSlots.2.kernelfile
        = ({ zeroRecord with revision := 5 } : BG_ENVDATA).kernelfile
    ∧ (mainSetenv [Opt.u, Opt.s "TESTING", Opt.r "99"]
        ({ zeroRecord with revision := 5 }, { zeroRecord with revision := 2 })).finalSlots.2.kernelparams
        = ({ zeroRecord with revision := 5 } : BG_ENVDATA).kernelparams
    ∧ (mainSetenv [Opt.u, Opt.s "TESTING", Opt.r "99"]
        ({ zeroRecord with revision := 5 }, { zeroRecord with revision := 2 })).finalSlots.2.watchdog_timeout_sec
        = ({ zeroRecord with revision := 5 } : BG_ENVDATA).watchdog_timeout_sec
    ∧ (mainSetenv [Opt.u, Opt.s "TESTING", Opt.r "99"]
        ({ zeroRecord with revision := 5 }, { zeroRecord with revision := 2 })).finalSlots.1
        = { zeroRecord with revision := 5 }
    ∧ (mainSetenv [Opt.u, Opt.s "TESTING", Opt.r "99"]
        ({ zeroRecord with revision := 5 }, { zeroRecord with revision := 2 })).finalSlots =
        (mainSetenv [Opt.u, Opt.s "TESTING"]
          ({ zeroRecord with revision := 5 }, { zeroRecord with revision := 2 })).finalSlots) :=
  ⟨rfl, rfl, auto_update_carry_forward _ _ "99" rfl rfl⟩

end BGSetenv
